import Mathlib

/-!
# Consul `operator raft` and `validate` commands

A shallow embedding of `command/operator_raft.go` and `command/validate.go`.

Both commands are methods on a receiver struct and talk to collaborators that
live outside the two files (`BaseCommand`, the standard `flag` package, the
HTTP client, `raftListPeers`, `raftRemovePeers`, `config.NewBuilder`).  The
receiver is passed explicitly, the collaborators are fields of an environment
record, and every call that leaves the two files is recorded, in program
order, as an `Event` of a trace.  Go `error` values are represented by the
text of their `Error()` method, `nil` by `none`.  The error stream and standard
output are the `c.UI.Error` and `c.UI.Output` calls made by the two files,
together with what `FlagSet.Parse` writes by itself to the output of the flag
set when it fails or is asked for help.
-/

namespace Consul

/-- Text of a Go `error` value, as returned by its `Error()` method. -/
abbrev GoError := String

/-! ## The `flag` package as seen by the commands -/

/-- One `flag.Value.Set` call made by `FlagSet.Parse`, described by the name of
the flag and the value the call stored.  A flag registered through `BoolVar`
stores the boolean that the flag package read from the argument (`bool`); any
other flag receives the argument text itself (`text`). -/
inductive SetCall where
  | bool (name : String) (v : Bool)
  | text (name : String) (v : String)
deriving DecidableEq, Repr

/-- How `FlagSet.Parse` returned: `nil` with the remaining positional
arguments (`FlagSet.Args()`), the sentinel `flag.ErrHelp`, or another error.
In the last two cases `printed` is what `Parse` wrote by itself to the output
of the flag set before returning (the error and the usage), line by line. -/
inductive ParseResult where
  | ok (rest : List String)
  | errHelp (printed : List String)
  | err (e : GoError) (printed : List String)
deriving DecidableEq, Repr

/-- What `FlagSet.Parse` wrote by itself to the output of the flag set. -/
def ParseResult.printed : ParseResult → List String
  | .ok _ => []
  | .errHelp printed => printed
  | .err _ printed => printed

/-- Everything `FlagSet.Parse(args)` did: the `Set` calls it performed on
registered flags before it returned, in command-line order, and how it
returned. -/
structure ParseOutcome where
  sets : List SetCall
  result : ParseResult
deriving DecidableEq, Repr

/-- Text of `flag.ErrHelp.Error()`. -/
def errHelpText : GoError := "flag: help requested"

/-- Values handed to the non-boolean flag `name`, in command-line order. -/
def textValues (name : String) : List SetCall → List String
  | [] => []
  | .text n v :: rest => if n = name then v :: textValues name rest else textValues name rest
  | .bool _ _ :: rest => textValues name rest

/-- Values stored into the boolean flag `name`, in command-line order. -/
def boolValues (name : String) : List SetCall → List Bool
  | [] => []
  | .bool n v :: rest => if n = name then v :: boolValues name rest else boolValues name rest
  | .text _ _ :: rest => boolValues name rest

/-- Final value of the string flag `name` whose default is `dflt`: the last
value given on the command line, if any. -/
def stringFlag (name : String) (dflt : String) (sets : List SetCall) : String :=
  ((textValues name sets).getLast?).getD dflt

/-- Final value of the boolean flag `name` whose default is `dflt`. -/
def boolFlag (name : String) (dflt : Bool) (sets : List SetCall) : Bool :=
  ((boolValues name sets).getLast?).getD dflt

/-! ## Observable behaviour -/

/-- Calls that leave the two source files, in the order the code makes them. -/
inductive Event where
  /-- The call `c.UI.Error(msg)`. -/
  | uiError (msg : String)
  /-- The call `c.UI.Output(msg)`. -/
  | uiOutput (msg : String)
  /-- A line written by `FlagSet.Parse` itself to the output of the flag set. -/
  | flagOutput (line : String)
  /-- The call `c.HTTPClient()`. -/
  | httpClient
  /-- The call `raftListPeers(client, stale)`. -/
  | raftListPeers (stale : Bool)
  /-- The call `client.Operator()`. -/
  | operator
  /-- The call `raftRemovePeers(address, id, operator)`. -/
  | raftRemovePeers (address : String) (id : String)
  /-- The call `config.NewBuilder` with `configFiles` as the `ConfigFiles` flag. -/
  | newBuilder (configFiles : List String)
  /-- The call `b.BuildAndValidate()`. -/
  | buildAndValidate
deriving DecidableEq, Repr

/-- Everything written to the error stream, in order: the lines of
`FlagSet.Parse` itself and the messages of `c.UI.Error`. -/
def stderr : List Event → List String
  | [] => []
  | .uiError m :: rest => m :: stderr rest
  | .flagOutput m :: rest => m :: stderr rest
  | _ :: rest => stderr rest

/-- Messages written by the command itself through `c.UI.Error`, in order. -/
def uiErrors : List Event → List String
  | [] => []
  | .uiError m :: rest => m :: uiErrors rest
  | _ :: rest => uiErrors rest

/-- Messages written to standard output (`c.UI.Output`), in order. -/
def stdout : List Event → List String
  | [] => []
  | .uiOutput m :: rest => m :: stdout rest
  | _ :: rest => stdout rest

/-- Stale flags of the `raftListPeers` calls of a trace, in order. -/
def listCalls : List Event → List Bool
  | [] => []
  | .raftListPeers s :: rest => s :: listCalls rest
  | _ :: rest => listCalls rest

/-- Arguments `(address, id)` of the `raftRemovePeers` calls of a trace. -/
def removeCalls : List Event → List (String × String)
  | [] => []
  | .raftRemovePeers a i :: rest => (a, i) :: removeCalls rest
  | _ :: rest => removeCalls rest

/-- Number of `client.Operator()` calls of a trace. -/
def operatorCalls : List Event → Nat
  | [] => 0
  | .operator :: rest => operatorCalls rest + 1
  | _ :: rest => operatorCalls rest

/-- Source lists handed to `config.NewBuilder` in a trace, in order. -/
def builderCalls : List Event → List (List String)
  | [] => []
  | .newBuilder fs :: rest => fs :: builderCalls rest
  | _ :: rest => builderCalls rest

/-- Result of running a command: the receiver afterwards, the trace of the
calls made, and the value returned. -/
structure Outcome (σ : Type) (ρ : Type) where
  cmd : σ
  trace : List Event
  ret : ρ
deriving Repr

/-! ## `command/operator_raft.go` -/

/-- Receiver fields of `OperatorRaftCommand` declared in the file. -/
structure OperatorRaftCommand where
  listPeers : Bool
  removePeer : Bool
  address : String
deriving DecidableEq, Repr

/-- Collaborators of `OperatorRaftCommand` that are defined outside
`operator_raft.go`. -/
structure OperatorEnv where
  /-- Outcome of `c.FlagSet.Parse(args)`. -/
  parse : List String → ParseOutcome
  /-- Error returned by `c.HTTPClient()`, `none` when a client is returned. -/
  httpClient : Option GoError
  /-- Value of `c.HTTPStale()`. -/
  httpStale : Bool
  /-- Both results of `raftListPeers(client, stale)`. -/
  raftListPeers : Bool → String × Option GoError
  /-- Error returned by `raftRemovePeers(address, id, operator)`. -/
  raftRemovePeers : String → String → Option GoError
  /-- Method `c.HelpCommand(text)` of `BaseCommand`. -/
  helpCommand : String → String
  /-- Rendering of a string by the `%q` verb of `fmt`. -/
  quote : String → String

/-- Method `initFlags`: `BoolVar` and `StringVar` store the default in the
bound field when the flag is registered. -/
def OperatorRaftCommand.initFlags (_c : OperatorRaftCommand) : OperatorRaftCommand :=
  { listPeers := false, removePeer := false, address := "" }

/-- Effect of one `Set` call on the fields bound by `initFlags`. -/
def OperatorRaftCommand.set (c : OperatorRaftCommand) : SetCall → OperatorRaftCommand
  | .bool name v =>
    if name = "list-peers" then { c with listPeers := v }
    else if name = "remove-peer" then { c with removePeer := v }
    else c
  | .text name v =>
    if name = "address" then { c with address := v } else c

/-- Literal passed to `c.HelpCommand` by `Help`. -/
def operatorRaftUsage : String :=
  "\nUsage: consul operator raft <subcommand> [options]\n\n" ++
  "The Raft operator command is used to interact with Consul\x27s Raft subsystem. The\n" ++
  "command can be used to verify Raft peers or in rare cases to recover quorum by\n" ++
  "removing invalid peers.\n\n" ++
  "Subcommands:\n\n" ++
  "    list-peers     Display the current Raft peer configuration\n" ++
  "    remove-peer    Remove a Consul server from the Raft configuration\n\n"

/-- Method `Help`: registers the flags again and renders the usage text. -/
def OperatorRaftCommand.Help (env : OperatorEnv) (c : OperatorRaftCommand) :
    OperatorRaftCommand × String :=
  (c.initFlags, env.helpCommand operatorRaftUsage)

/-- Method `raft`: handles the raft subcommands. -/
def OperatorRaftCommand.raft (env : OperatorEnv) (c : OperatorRaftCommand)
    (args : List String) : Outcome OperatorRaftCommand (Option GoError) :=
  let c := c.initFlags
  let p := env.parse args
  let c := p.sets.foldl OperatorRaftCommand.set c
  match p.result with
  | .errHelp printed => ⟨c, printed.map Event.flagOutput, none⟩
  | .err e printed => ⟨c, printed.map Event.flagOutput, some e⟩
  | .ok _ =>
    match env.httpClient with
    | some e => ⟨c, [.httpClient], some ("error connecting to Consul agent: " ++ e)⟩
    | none =>
      if c.listPeers then
        match env.raftListPeers env.httpStale with
        | (result, some e) =>
          ⟨c, [.httpClient, .raftListPeers env.httpStale,
               .uiError ("Error getting peers: " ++ e), .uiOutput result], none⟩
        | (result, none) =>
          ⟨c, [.httpClient, .raftListPeers env.httpStale, .uiOutput result], none⟩
      else if c.removePeer then
        match env.raftRemovePeers c.address "" with
        | some e =>
          ⟨c, [.httpClient, .operator, .raftRemovePeers c.address ""],
            some ("Error removing peer: " ++ e)⟩
        | none =>
          ⟨c, [.httpClient, .operator, .raftRemovePeers c.address "",
               .uiOutput ("Removed peer with address " ++ env.quote c.address)], none⟩
      else
        let h := c.Help env
        ⟨h.1, [.httpClient, .uiOutput h.2], none⟩

/-- Method `Run` of `OperatorRaftCommand`. -/
def OperatorRaftCommand.Run (env : OperatorEnv) (c : OperatorRaftCommand)
    (args : List String) : Outcome OperatorRaftCommand Int :=
  match c.raft env args with
  | ⟨c1, tr, some e⟩ => ⟨c1, tr ++ [.uiError e], 1⟩
  | ⟨c1, tr, none⟩ => ⟨c1, tr, 0⟩

/-! ## `command/validate.go` -/

/-- Receiver fields of `ValidateCommand` declared in the file. -/
structure ValidateCommand where
  configFiles : List String
  quiet : Bool
deriving DecidableEq, Repr

/-- A freshly constructed `ValidateCommand`: Go zero values. -/
def ValidateCommand.fresh : ValidateCommand :=
  { configFiles := [], quiet := false }

/-- Collaborators of `ValidateCommand` that are defined outside `validate.go`. -/
structure ValidateEnv where
  /-- Outcome of `c.FlagSet.Parse(args)`. -/
  parse : List String → ParseOutcome
  /-- Error returned by `config.NewBuilder` for a source list. -/
  newBuilder : List String → Option GoError
  /-- Error returned by `BuildAndValidate` on the builder of a source list. -/
  buildAndValidate : List String → Option GoError

/-- Method `initFlags`: `BoolVar` stores the default in `quiet`; `Var` binds
`configFiles` to both `-config-file` and `-config-dir` and leaves it as it is. -/
def ValidateCommand.initFlags (c : ValidateCommand) : ValidateCommand :=
  { c with quiet := false }

/-- Effect of one `Set` call on the fields bound by `initFlags`;
`AppendSliceValue.Set` appends the value to the bound slice. -/
def ValidateCommand.set (c : ValidateCommand) : SetCall → ValidateCommand
  | .text name v =>
    if name = "config-file" then { c with configFiles := c.configFiles ++ [v] }
    else if name = "config-dir" then { c with configFiles := c.configFiles ++ [v] }
    else c
  | .bool name v =>
    if name = "quiet" then { c with quiet := v } else c

/-- Method `Run` of `ValidateCommand`. -/
def ValidateCommand.Run (env : ValidateEnv) (c : ValidateCommand)
    (args : List String) : Outcome ValidateCommand Int :=
  let c := c.initFlags
  let p := env.parse args
  let c := p.sets.foldl ValidateCommand.set c
  match p.result with
  | .errHelp printed => ⟨c, printed.map Event.flagOutput ++ [.uiError errHelpText], 1⟩
  | .err e printed => ⟨c, printed.map Event.flagOutput ++ [.uiError e], 1⟩
  | .ok rest =>
    let c := if rest.length > 0 then { c with configFiles := c.configFiles ++ rest } else c
    if c.configFiles.length < 1 then
      ⟨c, [.uiError "Must specify at least one config file or directory"], 1⟩
    else
      match env.newBuilder c.configFiles with
      | some e =>
        ⟨c, [.newBuilder c.configFiles, .uiError ("Config validation failed: " ++ e)], 1⟩
      | none =>
        match env.buildAndValidate c.configFiles with
        | some e =>
          ⟨c, [.newBuilder c.configFiles, .buildAndValidate,
               .uiError ("Config validation failed: " ++ e)], 1⟩
        | none =>
          if !c.quiet then
            ⟨c, [.newBuilder c.configFiles, .buildAndValidate,
                 .uiOutput "Configuration is valid!"], 0⟩
          else
            ⟨c, [.newBuilder c.configFiles, .buildAndValidate], 0⟩

/-! ## Derived notions used in the statements -/

/-- Values given via `-config-file` and `-config-dir`, in command-line order. -/
def configSources : List SetCall → List String
  | [] => []
  | .text n v :: rest =>
    if n = "config-file" ∨ n = "config-dir" then v :: configSources rest
    else configSources rest
  | .bool _ _ :: rest => configSources rest

/-- The receiver of `OperatorRaftCommand` once `initFlags` and `Parse` have run. -/
def OperatorRaftCommand.parsed (env : OperatorEnv) (c : OperatorRaftCommand)
    (args : List String) : OperatorRaftCommand :=
  (env.parse args).sets.foldl OperatorRaftCommand.set c.initFlags

/-- The source list `c.configFiles` once the flags and the positional
arguments `rest` of a command line have been taken in. -/
def ValidateCommand.sources (c : ValidateCommand) (sets : List SetCall)
    (rest : List String) : List String :=
  c.configFiles ++ configSources sets ++ rest

/-- The receiver of `ValidateCommand.Run` at the emptiness check, after a
successful parse that left the positional arguments `rest`. -/
def ValidateCommand.loaded (c : ValidateCommand) (sets : List SetCall)
    (rest : List String) : ValidateCommand :=
  { configFiles := c.sources sets rest, quiet := boolFlag "quiet" false sets }

/-! ## Sample environments -/

/-- A freshly constructed `OperatorRaftCommand`: Go zero values. -/
def OperatorRaftCommand.fresh : OperatorRaftCommand :=
  { listPeers := false, removePeer := false, address := "" }

/-- Rendering by `%q` of a string that needs no escaping. -/
def plainQuote (s : String) : String := "\"" ++ s ++ "\""

/-- What `Parse` does on a few command lines of the operator command; every
other command line is taken as rejected, the error being the one line `Parse`
prints. -/
def operatorLine : List String → ParseOutcome
  | [] => ⟨[], .ok []⟩
  | ["-list-peers"] => ⟨[.bool "list-peers" true], .ok []⟩
  | ["-remove-peer"] => ⟨[.bool "remove-peer" true], .ok []⟩
  | ["-remove-peer", "-address", a] =>
    ⟨[.bool "remove-peer" true, .text "address" a], .ok []⟩
  | ["-list-peers", "-remove-peer", "-address", a] =>
    ⟨[.bool "list-peers" true, .bool "remove-peer" true, .text "address" a], .ok []⟩
  | _ => ⟨[], .err "flag provided but not defined" ["flag provided but not defined"]⟩

/-- A reachable cluster with a leader: listing succeeds, removal rejects an
empty request and the unknown address `10.0.0.9:8300`. -/
def clusterEnv : OperatorEnv where
  parse := operatorLine
  httpClient := none
  httpStale := false
  raftListPeers := fun _ => ("Node  ID  Address  State  Voter", none)
  raftRemovePeers := fun a i =>
    if a = "" ∧ i = "" then some "an address or id is required for the peer to remove"
    else if a = "10.0.0.9:8300" then some "Failed to remove raft peer: peer not found"
    else none
  helpCommand := fun text => text
  quote := plainQuote

/-- A reachable agent of a cluster without leader: listing fails. -/
def leaderlessEnv : OperatorEnv :=
  { clusterEnv with
    raftListPeers := fun _ => ("", some "Failed to retrieve raft configuration: No cluster leader") }

/-- An environment in which `HTTPClient` fails. -/
def unreachableEnv : OperatorEnv :=
  { clusterEnv with httpClient := some "invalid HTTP address" }

/-- What `Parse` does on a few command lines of the validate command; every
other command line is taken as rejected, the error being the one line `Parse`
prints. -/
def validateLine : List String → ParseOutcome
  | [] => ⟨[], .ok []⟩
  | ["a.json"] => ⟨[], .ok ["a.json"]⟩
  | ["broken.json"] => ⟨[], .ok ["broken.json"]⟩
  | ["-quiet", "a.json"] => ⟨[.bool "quiet" true], .ok ["a.json"]⟩
  | ["-quiet", "broken.json"] => ⟨[.bool "quiet" true], .ok ["broken.json"]⟩
  | ["-config-dir", "conf.d", "-config-file", "a.json", "b.json", "a.json"] =>
    ⟨[.text "config-dir" "conf.d", .text "config-file" "a.json"], .ok ["b.json", "a.json"]⟩
  | ["-bogus"] =>
    ⟨[], .err "flag provided but not defined: -bogus"
      ["flag provided but not defined: -bogus"]⟩
  | _ => ⟨[], .err "flag provided but not defined" ["flag provided but not defined"]⟩

/-- A configuration directory in which only `broken.json` fails to validate
and `missing.json` cannot be loaded by the builder. -/
def diskEnv : ValidateEnv where
  parse := validateLine
  newBuilder := fun files =>
    if "missing.json" ∈ files then some "open missing.json: no such file or directory"
    else none
  buildAndValidate := fun files =>
    if "broken.json" ∈ files then some "Error parsing broken.json: invalid character"
    else none

/-! ## Lines of `FlagSet.Parse` in a trace -/

theorem stderr_flagOutput (printed : List String) (tr : List Event) :
    stderr (printed.map Event.flagOutput ++ tr) = printed ++ stderr tr := by
  induction printed with
  | nil => rfl
  | cons x xs ih => simp [stderr, ih]

theorem uiErrors_flagOutput (printed : List String) (tr : List Event) :
    uiErrors (printed.map Event.flagOutput ++ tr) = uiErrors tr := by
  induction printed with
  | nil => rfl
  | cons x xs ih => simp [uiErrors, ih]

theorem removeCalls_flagOutput (printed : List String) (tr : List Event) :
    removeCalls (printed.map Event.flagOutput ++ tr) = removeCalls tr := by
  induction printed with
  | nil => rfl
  | cons x xs ih => simp [removeCalls, ih]

/-! ## Flag values after parsing -/

theorem getLast?_getD_cons {α : Type} (a d : α) (l : List α) :
    ((a :: l).getLast?).getD d = (l.getLast?).getD a := by
  rw [List.getLast?_cons]
  cases l.getLast? <;> rfl

theorem operator_fold_listPeers (sets : List SetCall) (c : OperatorRaftCommand) :
    (sets.foldl OperatorRaftCommand.set c).listPeers
      = ((boolValues "list-peers" sets).getLast?).getD c.listPeers := by
  induction sets generalizing c with
  | nil => rfl
  | cons s rest ih =>
    rw [List.foldl_cons, ih]
    cases s with
    | bool n v =>
      by_cases h : n = "list-peers"
      · simp [boolValues, OperatorRaftCommand.set, h, getLast?_getD_cons]
      · by_cases h2 : n = "remove-peer" <;> simp [boolValues, OperatorRaftCommand.set, h, h2]
    | text n v =>
      by_cases h : n = "address" <;> simp [boolValues, OperatorRaftCommand.set, h]

theorem operator_fold_removePeer (sets : List SetCall) (c : OperatorRaftCommand) :
    (sets.foldl OperatorRaftCommand.set c).removePeer
      = ((boolValues "remove-peer" sets).getLast?).getD c.removePeer := by
  induction sets generalizing c with
  | nil => rfl
  | cons s rest ih =>
    rw [List.foldl_cons, ih]
    cases s with
    | bool n v =>
      by_cases h : n = "list-peers"
      · simp [boolValues, OperatorRaftCommand.set, h]
      · by_cases h2 : n = "remove-peer" <;>
          simp [boolValues, OperatorRaftCommand.set, h, h2, getLast?_getD_cons]
    | text n v =>
      by_cases h : n = "address" <;> simp [boolValues, OperatorRaftCommand.set, h]

theorem operator_fold_address (sets : List SetCall) (c : OperatorRaftCommand) :
    (sets.foldl OperatorRaftCommand.set c).address
      = ((textValues "address" sets).getLast?).getD c.address := by
  induction sets generalizing c with
  | nil => rfl
  | cons s rest ih =>
    rw [List.foldl_cons, ih]
    cases s with
    | bool n v =>
      by_cases h : n = "list-peers"
      · simp [textValues, OperatorRaftCommand.set, h]
      · by_cases h2 : n = "remove-peer" <;> simp [textValues, OperatorRaftCommand.set, h, h2]
    | text n v =>
      by_cases h : n = "address" <;>
        simp [textValues, OperatorRaftCommand.set, h, getLast?_getD_cons]

theorem operator_parsed_listPeers (env : OperatorEnv) (c : OperatorRaftCommand)
    (args : List String) :
    (c.parsed env args).listPeers = boolFlag "list-peers" false (env.parse args).sets := by
  simp [OperatorRaftCommand.parsed, operator_fold_listPeers, boolFlag,
    OperatorRaftCommand.initFlags]

theorem operator_parsed_removePeer (env : OperatorEnv) (c : OperatorRaftCommand)
    (args : List String) :
    (c.parsed env args).removePeer = boolFlag "remove-peer" false (env.parse args).sets := by
  simp [OperatorRaftCommand.parsed, operator_fold_removePeer, boolFlag,
    OperatorRaftCommand.initFlags]

theorem operator_parsed_address (env : OperatorEnv) (c : OperatorRaftCommand)
    (args : List String) :
    (c.parsed env args).address = stringFlag "address" "" (env.parse args).sets := by
  simp [OperatorRaftCommand.parsed, operator_fold_address, stringFlag,
    OperatorRaftCommand.initFlags]

theorem validate_fold_configFiles (sets : List SetCall) (c : ValidateCommand) :
    (sets.foldl ValidateCommand.set c).configFiles = c.configFiles ++ configSources sets := by
  induction sets generalizing c with
  | nil => simp [configSources]
  | cons s rest ih =>
    rw [List.foldl_cons, ih]
    cases s with
    | bool n v =>
      by_cases h : n = "quiet" <;> simp [configSources, ValidateCommand.set, h]
    | text n v =>
      by_cases h : n = "config-file"
      · simp [configSources, ValidateCommand.set, h]
      · by_cases h2 : n = "config-dir" <;> simp [configSources, ValidateCommand.set, h, h2]

theorem validate_fold_quiet (sets : List SetCall) (c : ValidateCommand) :
    (sets.foldl ValidateCommand.set c).quiet
      = ((boolValues "quiet" sets).getLast?).getD c.quiet := by
  induction sets generalizing c with
  | nil => rfl
  | cons s rest ih =>
    rw [List.foldl_cons, ih]
    cases s with
    | bool n v =>
      by_cases h : n = "quiet" <;>
        simp [boolValues, ValidateCommand.set, h, getLast?_getD_cons]
    | text n v =>
      by_cases h : n = "config-file"
      · simp [boolValues, ValidateCommand.set, h]
      · by_cases h2 : n = "config-dir" <;> simp [boolValues, ValidateCommand.set, h, h2]

/-! ## Branches of `OperatorRaftCommand.Run` -/

theorem operator_run_parse_err (env : OperatorEnv) (c : OperatorRaftCommand)
    (args : List String) (e : GoError) (printed : List String)
    (hp : (env.parse args).result = .err e printed) :
    c.Run env args
      = ⟨c.parsed env args, printed.map Event.flagOutput ++ [.uiError e], 1⟩ := by
  simp [OperatorRaftCommand.Run, OperatorRaftCommand.raft, OperatorRaftCommand.parsed, hp]

theorem operator_run_parse_help (env : OperatorEnv) (c : OperatorRaftCommand)
    (args : List String) (printed : List String)
    (hp : (env.parse args).result = .errHelp printed) :
    c.Run env args = ⟨c.parsed env args, printed.map Event.flagOutput, 0⟩ := by
  simp [OperatorRaftCommand.Run, OperatorRaftCommand.raft, OperatorRaftCommand.parsed, hp]

theorem operator_run_client_err (env : OperatorEnv) (c : OperatorRaftCommand)
    (args rest : List String) (e : GoError)
    (hp : (env.parse args).result = .ok rest) (hc : env.httpClient = some e) :
    c.Run env args = ⟨c.parsed env args,
      [.httpClient, .uiError ("error connecting to Consul agent: " ++ e)], 1⟩ := by
  simp [OperatorRaftCommand.Run, OperatorRaftCommand.raft, OperatorRaftCommand.parsed, hp, hc]

theorem operator_run_list_err (env : OperatorEnv) (c : OperatorRaftCommand)
    (args rest : List String) (report : String) (e : GoError)
    (hp : (env.parse args).result = .ok rest) (hc : env.httpClient = none)
    (hl : (c.parsed env args).listPeers = true)
    (hr : env.raftListPeers env.httpStale = (report, some e)) :
    c.Run env args = ⟨c.parsed env args,
      [.httpClient, .raftListPeers env.httpStale,
       .uiError ("Error getting peers: " ++ e), .uiOutput report], 0⟩ := by
  unfold OperatorRaftCommand.parsed at hl
  simp [OperatorRaftCommand.Run, OperatorRaftCommand.raft, OperatorRaftCommand.parsed,
    hp, hc, hl, hr]

theorem operator_run_list_ok (env : OperatorEnv) (c : OperatorRaftCommand)
    (args rest : List String) (report : String)
    (hp : (env.parse args).result = .ok rest) (hc : env.httpClient = none)
    (hl : (c.parsed env args).listPeers = true)
    (hr : env.raftListPeers env.httpStale = (report, none)) :
    c.Run env args = ⟨c.parsed env args,
      [.httpClient, .raftListPeers env.httpStale, .uiOutput report], 0⟩ := by
  unfold OperatorRaftCommand.parsed at hl
  simp [OperatorRaftCommand.Run, OperatorRaftCommand.raft, OperatorRaftCommand.parsed,
    hp, hc, hl, hr]

theorem operator_run_remove_err (env : OperatorEnv) (c : OperatorRaftCommand)
    (args rest : List String) (e : GoError)
    (hp : (env.parse args).result = .ok rest) (hc : env.httpClient = none)
    (hl : (c.parsed env args).listPeers = false)
    (hr : (c.parsed env args).removePeer = true)
    (hd : env.raftRemovePeers (c.parsed env args).address "" = some e) :
    c.Run env args = ⟨c.parsed env args,
      [.httpClient, .operator, .raftRemovePeers (c.parsed env args).address "",
       .uiError ("Error removing peer: " ++ e)], 1⟩ := by
  unfold OperatorRaftCommand.parsed at hl hr hd
  simp [OperatorRaftCommand.Run, OperatorRaftCommand.raft, OperatorRaftCommand.parsed,
    hp, hc, hl, hr, hd]

theorem operator_run_remove_ok (env : OperatorEnv) (c : OperatorRaftCommand)
    (args rest : List String)
    (hp : (env.parse args).result = .ok rest) (hc : env.httpClient = none)
    (hl : (c.parsed env args).listPeers = false)
    (hr : (c.parsed env args).removePeer = true)
    (hd : env.raftRemovePeers (c.parsed env args).address "" = none) :
    c.Run env args = ⟨c.parsed env args,
      [.httpClient, .operator, .raftRemovePeers (c.parsed env args).address "",
       .uiOutput ("Removed peer with address " ++ env.quote (c.parsed env args).address)],
      0⟩ := by
  unfold OperatorRaftCommand.parsed at hl hr hd
  simp [OperatorRaftCommand.Run, OperatorRaftCommand.raft, OperatorRaftCommand.parsed,
    hp, hc, hl, hr, hd]

theorem operator_run_help (env : OperatorEnv) (c : OperatorRaftCommand)
    (args rest : List String)
    (hp : (env.parse args).result = .ok rest) (hc : env.httpClient = none)
    (hl : (c.parsed env args).listPeers = false)
    (hr : (c.parsed env args).removePeer = false) :
    c.Run env args = ⟨(c.parsed env args).initFlags,
      [.httpClient, .uiOutput (env.helpCommand operatorRaftUsage)], 0⟩ := by
  unfold OperatorRaftCommand.parsed at hl hr
  simp [OperatorRaftCommand.Run, OperatorRaftCommand.raft, OperatorRaftCommand.parsed,
    OperatorRaftCommand.Help, hp, hc, hl, hr]

/-! ## Claims about `OperatorRaftCommand` -/

/-- C1 (evaluation at the failing input): with `-list-peers`, a client that is
set up and a `raftListPeers` that returns an error, `Run` writes
`Error getting peers: ...` to the error stream, still writes the (empty) result
to standard output, and returns 0 rather than 1. -/
theorem C1_list_error_returns_zero :
    (OperatorRaftCommand.fresh.Run leaderlessEnv ["-list-peers"]).ret = 0
    ∧ stderr (OperatorRaftCommand.fresh.Run leaderlessEnv ["-list-peers"]).trace
        = ["Error getting peers: Failed to retrieve raft configuration: No cluster leader"]
    ∧ stdout (OperatorRaftCommand.fresh.Run leaderlessEnv ["-list-peers"]).trace = [""] := by
  decide

/-- C2: when the arguments parse with `-remove-peer` set, `-list-peers` not
set and address `a`, and the client is set up, `Run` delegates the removal of
`a` once; if it succeeds `Run` writes the single line
`Removed peer with address` followed by the quoted `a` to standard output,
nothing to the error stream, and returns 0; if it fails with `e`, `Run` writes
nothing to standard output, `Error removing peer: e` to the error stream, and
returns 1. -/
theorem C2_remove_peer_outcome (env : OperatorEnv) (c : OperatorRaftCommand)
    (args rest : List String) (a : String)
    (hp : (env.parse args).result = .ok rest)
    (hr : boolFlag "remove-peer" false (env.parse args).sets = true)
    (hl : boolFlag "list-peers" false (env.parse args).sets = false)
    (ha : stringFlag "address" "" (env.parse args).sets = a)
    (hc : env.httpClient = none) :
    removeCalls (c.Run env args).trace = [(a, "")]
    ∧ (env.raftRemovePeers a "" = none →
        stdout (c.Run env args).trace = ["Removed peer with address " ++ env.quote a]
        ∧ stderr (c.Run env args).trace = []
        ∧ (c.Run env args).ret = 0)
    ∧ (∀ e, env.raftRemovePeers a "" = some e →
        stdout (c.Run env args).trace = []
        ∧ stderr (c.Run env args).trace = ["Error removing peer: " ++ e]
        ∧ (c.Run env args).ret = 1) := by
  have hl1 := operator_parsed_listPeers env c args
  have hr1 := operator_parsed_removePeer env c args
  have ha1 := operator_parsed_address env c args
  rw [hl] at hl1
  rw [hr] at hr1
  rw [ha] at ha1
  cases hd : env.raftRemovePeers a "" with
  | none =>
    have hd1 : env.raftRemovePeers (c.parsed env args).address "" = none := by rw [ha1]; exact hd
    rw [operator_run_remove_ok env c args rest hp hc hl1 hr1 hd1, ha1]
    simp [removeCalls, stdout, stderr]
  | some e =>
    have hd1 : env.raftRemovePeers (c.parsed env args).address "" = some e := by
      rw [ha1]; exact hd
    rw [operator_run_remove_err env c args rest e hp hc hl1 hr1 hd1, ha1]
    simp [removeCalls, stdout, stderr]

/-- Witness of C2: removing `10.0.0.2:8300` succeeds in `clusterEnv`, removing
`10.0.0.9:8300` fails there. -/
theorem C2_remove_peer_outcome_witness :
    (stdout (OperatorRaftCommand.fresh.Run clusterEnv
        ["-remove-peer", "-address", "10.0.0.2:8300"]).trace
        = ["Removed peer with address \"10.0.0.2:8300\""]
      ∧ stderr (OperatorRaftCommand.fresh.Run clusterEnv
        ["-remove-peer", "-address", "10.0.0.2:8300"]).trace = []
      ∧ (OperatorRaftCommand.fresh.Run clusterEnv
        ["-remove-peer", "-address", "10.0.0.2:8300"]).ret = 0)
    ∧ (stdout (OperatorRaftCommand.fresh.Run clusterEnv
        ["-remove-peer", "-address", "10.0.0.9:8300"]).trace = []
      ∧ stderr (OperatorRaftCommand.fresh.Run clusterEnv
        ["-remove-peer", "-address", "10.0.0.9:8300"]).trace
        = ["Error removing peer: Failed to remove raft peer: peer not found"]
      ∧ (OperatorRaftCommand.fresh.Run clusterEnv
        ["-remove-peer", "-address", "10.0.0.9:8300"]).ret = 1) :=
  ⟨(C2_remove_peer_outcome clusterEnv OperatorRaftCommand.fresh
      ["-remove-peer", "-address", "10.0.0.2:8300"] [] "10.0.0.2:8300"
      (by decide) (by decide) (by decide) (by decide) (by decide)).2.1 (by decide),
   (C2_remove_peer_outcome clusterEnv OperatorRaftCommand.fresh
      ["-remove-peer", "-address", "10.0.0.9:8300"] [] "10.0.0.9:8300"
      (by decide) (by decide) (by decide) (by decide) (by decide)).2.2
      "Failed to remove raft peer: peer not found" (by decide)⟩

/-- C3 (counterexample): with `-remove-peer` and no `-address`, the command
does delegate: `client.Operator()` and `raftRemovePeers` are each invoked once,
the latter with an empty address and an empty ID. -/
theorem C3_empty_address_is_delegated :
    removeCalls (OperatorRaftCommand.fresh.Run clusterEnv ["-remove-peer"]).trace = [("", "")]
    ∧ operatorCalls (OperatorRaftCommand.fresh.Run clusterEnv ["-remove-peer"]).trace = 1 := by
  decide

/-- C3 (amended): when the arguments parse with `-remove-peer` set,
`-list-peers` not set and an empty address, and the client is set up, the
command validates nothing itself: it invokes `client.Operator()` once and
`raftRemovePeers` once, with address and ID both empty, and `Run` returns 1,
writing `Error removing peer: e`, exactly when that call returns an error `e`;
otherwise it prints the confirmation and returns 0. -/
theorem C3_empty_address_outcome (env : OperatorEnv) (c : OperatorRaftCommand)
    (args rest : List String)
    (hp : (env.parse args).result = .ok rest)
    (hr : boolFlag "remove-peer" false (env.parse args).sets = true)
    (hl : boolFlag "list-peers" false (env.parse args).sets = false)
    (ha : stringFlag "address" "" (env.parse args).sets = "")
    (hc : env.httpClient = none) :
    removeCalls (c.Run env args).trace = [("", "")]
    ∧ operatorCalls (c.Run env args).trace = 1
    ∧ ((c.Run env args).ret = 1 ↔ ∃ e, env.raftRemovePeers "" "" = some e)
    ∧ (∀ e, env.raftRemovePeers "" "" = some e →
        stderr (c.Run env args).trace = ["Error removing peer: " ++ e]
        ∧ stdout (c.Run env args).trace = [])
    ∧ (env.raftRemovePeers "" "" = none →
        (c.Run env args).ret = 0
        ∧ stderr (c.Run env args).trace = []
        ∧ stdout (c.Run env args).trace = ["Removed peer with address " ++ env.quote ""]) := by
  have hl1 := operator_parsed_listPeers env c args
  have hr1 := operator_parsed_removePeer env c args
  have ha1 := operator_parsed_address env c args
  rw [hl] at hl1
  rw [hr] at hr1
  rw [ha] at ha1
  cases hd : env.raftRemovePeers "" "" with
  | none =>
    have hd1 : env.raftRemovePeers (c.parsed env args).address "" = none := by rw [ha1]; exact hd
    rw [operator_run_remove_ok env c args rest hp hc hl1 hr1 hd1, ha1]
    simp [removeCalls, operatorCalls, stdout, stderr]
  | some e =>
    have hd1 : env.raftRemovePeers (c.parsed env args).address "" = some e := by
      rw [ha1]; exact hd
    rw [operator_run_remove_err env c args rest e hp hc hl1 hr1 hd1, ha1]
    simp [removeCalls, operatorCalls, stdout, stderr]

/-- Witness of C3 (amended): `-remove-peer` alone in `clusterEnv`, where the
delegated call rejects the empty request. -/
theorem C3_empty_address_outcome_witness :
    (OperatorRaftCommand.fresh.Run clusterEnv ["-remove-peer"]).ret = 1
    ∧ stderr (OperatorRaftCommand.fresh.Run clusterEnv ["-remove-peer"]).trace
        = ["Error removing peer: an address or id is required for the peer to remove"]
    ∧ stdout (OperatorRaftCommand.fresh.Run clusterEnv ["-remove-peer"]).trace = [] :=
  have h := C3_empty_address_outcome clusterEnv OperatorRaftCommand.fresh ["-remove-peer"] []
    (by decide) (by decide) (by decide) (by decide) (by decide)
  ⟨h.2.2.1.mpr ⟨"an address or id is required for the peer to remove", by decide⟩,
   h.2.2.2.1 "an address or id is required for the peer to remove" (by decide)⟩

/-- C4 (counterexample): the arguments parse and set neither flag, but
`HTTPClient` fails: `Run` returns 1 and writes no usage text, only the
connection error on the error stream. -/
theorem C4_no_verb_client_failure :
    (OperatorRaftCommand.fresh.Run unreachableEnv []).ret = 1
    ∧ stdout (OperatorRaftCommand.fresh.Run unreachableEnv []).trace = []
    ∧ stderr (OperatorRaftCommand.fresh.Run unreachableEnv []).trace
        = ["error connecting to Consul agent: invalid HTTP address"] := by
  decide

/-- C4 (amended): when the arguments parse and set neither `-list-peers` nor
`-remove-peer`, and the client is set up, `Run` writes the usage text to
standard output (and nothing else to either stream), performs neither a list
nor a removal, and returns 0. -/
theorem C4_no_verb_prints_help (env : OperatorEnv) (c : OperatorRaftCommand)
    (args rest : List String)
    (hp : (env.parse args).result = .ok rest)
    (hl : boolFlag "list-peers" false (env.parse args).sets = false)
    (hr : boolFlag "remove-peer" false (env.parse args).sets = false)
    (hc : env.httpClient = none) :
    stdout (c.Run env args).trace = [(c.Help env).2]
    ∧ stderr (c.Run env args).trace = []
    ∧ listCalls (c.Run env args).trace = []
    ∧ removeCalls (c.Run env args).trace = []
    ∧ operatorCalls (c.Run env args).trace = 0
    ∧ (c.Run env args).ret = 0 := by
  have hl1 := operator_parsed_listPeers env c args
  have hr1 := operator_parsed_removePeer env c args
  rw [hl] at hl1
  rw [hr] at hr1
  rw [operator_run_help env c args rest hp hc hl1 hr1]
  simp [stdout, stderr, listCalls, removeCalls, operatorCalls, OperatorRaftCommand.Help]

/-- Witness of C4 (amended): the empty command line in `clusterEnv`. -/
theorem C4_no_verb_prints_help_witness :
    stdout (OperatorRaftCommand.fresh.Run clusterEnv []).trace = [operatorRaftUsage]
    ∧ stderr (OperatorRaftCommand.fresh.Run clusterEnv []).trace = []
    ∧ listCalls (OperatorRaftCommand.fresh.Run clusterEnv []).trace = []
    ∧ removeCalls (OperatorRaftCommand.fresh.Run clusterEnv []).trace = []
    ∧ operatorCalls (OperatorRaftCommand.fresh.Run clusterEnv []).trace = 0
    ∧ (OperatorRaftCommand.fresh.Run clusterEnv []).ret = 0 :=
  C4_no_verb_prints_help clusterEnv OperatorRaftCommand.fresh [] []
    (by decide) (by decide) (by decide) (by decide)

/-- C5: for every environment, receiver and argument list, every
`raftRemovePeers` call that `Run` makes passes the final value of the
`-address` flag as address and the empty string as ID. -/
theorem C5_removal_is_by_address_only (env : OperatorEnv) (c : OperatorRaftCommand)
    (args : List String) (a i : String)
    (hmem : (a, i) ∈ removeCalls (c.Run env args).trace) :
    a = stringFlag "address" "" (env.parse args).sets ∧ i = "" := by
  have ha1 := operator_parsed_address env c args
  cases hp : (env.parse args).result with
  | errHelp printed =>
    rw [operator_run_parse_help env c args printed hp] at hmem
    have h0 := removeCalls_flagOutput printed []
    rw [List.append_nil] at h0
    rw [h0] at hmem
    simp [removeCalls] at hmem
  | err e printed =>
    rw [operator_run_parse_err env c args e printed hp, removeCalls_flagOutput] at hmem
    simp [removeCalls] at hmem
  | ok rest =>
    cases hc : env.httpClient with
    | some e =>
      rw [operator_run_client_err env c args rest e hp hc] at hmem
      simp [removeCalls] at hmem
    | none =>
      cases hl : (c.parsed env args).listPeers with
      | true =>
        rcases hlist : env.raftListPeers env.httpStale with ⟨report, _ | e⟩
        · rw [operator_run_list_ok env c args rest report hp hc hl hlist] at hmem
          simp [removeCalls] at hmem
        · rw [operator_run_list_err env c args rest report e hp hc hl hlist] at hmem
          simp [removeCalls] at hmem
      | false =>
        cases hr : (c.parsed env args).removePeer with
        | false =>
          rw [operator_run_help env c args rest hp hc hl hr] at hmem
          simp [removeCalls] at hmem
        | true =>
          cases hd : env.raftRemovePeers (c.parsed env args).address "" with
          | none =>
            rw [operator_run_remove_ok env c args rest hp hc hl hr hd] at hmem
            simp [removeCalls] at hmem
            rw [← ha1]
            exact hmem
          | some e =>
            rw [operator_run_remove_err env c args rest e hp hc hl hr hd] at hmem
            simp [removeCalls] at hmem
            rw [← ha1]
            exact hmem

/-- Witness of C5: the removal delegated for
`-remove-peer -address 10.0.0.2:8300`. -/
theorem C5_removal_is_by_address_only_witness :
    ("10.0.0.2:8300", "") ∈ removeCalls (OperatorRaftCommand.fresh.Run clusterEnv
        ["-remove-peer", "-address", "10.0.0.2:8300"]).trace
    ∧ "10.0.0.2:8300" = stringFlag "address" ""
        (clusterEnv.parse ["-remove-peer", "-address", "10.0.0.2:8300"]).sets
    ∧ "" = "" :=
  ⟨by decide,
   C5_removal_is_by_address_only clusterEnv OperatorRaftCommand.fresh
     ["-remove-peer", "-address", "10.0.0.2:8300"] "10.0.0.2:8300" "" (by decide)⟩

/-- C9 (counterexample): both flags are set but `HTTPClient` fails: the peer
list is not fetched at all. -/
theorem C9_both_flags_client_failure :
    listCalls (OperatorRaftCommand.fresh.Run unreachableEnv
      ["-list-peers", "-remove-peer", "-address", "10.0.0.2:8300"]).trace = [] := by
  decide

/-- C9 (amended): when the arguments parse with both `-list-peers` and
`-remove-peer` set, whatever the address, the removal is never invoked and the
only line `Run` may write to standard output is the report returned by
`raftListPeers`, never a confirmation; and when the client is set up, the peer
list is fetched exactly once and that report is the one line written. -/
theorem C9_list_takes_precedence (env : OperatorEnv) (c : OperatorRaftCommand)
    (args rest : List String)
    (hp : (env.parse args).result = .ok rest)
    (hl : boolFlag "list-peers" false (env.parse args).sets = true)
    (_hr : boolFlag "remove-peer" false (env.parse args).sets = true) :
    removeCalls (c.Run env args).trace = []
    ∧ operatorCalls (c.Run env args).trace = 0
    ∧ (∀ line, line ∈ stdout (c.Run env args).trace →
        line = (env.raftListPeers env.httpStale).1)
    ∧ (env.httpClient = none →
        listCalls (c.Run env args).trace = [env.httpStale]
        ∧ stdout (c.Run env args).trace = [(env.raftListPeers env.httpStale).1]) := by
  have hl1 := operator_parsed_listPeers env c args
  rw [hl] at hl1
  cases hc : env.httpClient with
  | some e =>
    rw [operator_run_client_err env c args rest e hp hc]
    simp [removeCalls, operatorCalls, stdout]
  | none =>
    rcases hlist : env.raftListPeers env.httpStale with ⟨report, _ | e⟩
    · rw [operator_run_list_ok env c args rest report hp hc hl1 hlist]
      simp [removeCalls, operatorCalls, stdout, listCalls]
    · rw [operator_run_list_err env c args rest report e hp hc hl1 hlist]
      simp [removeCalls, operatorCalls, stdout, listCalls]

/-- Witness of C9 (amended): both flags with an address in `clusterEnv`. -/
theorem C9_list_takes_precedence_witness :
    removeCalls (OperatorRaftCommand.fresh.Run clusterEnv
      ["-list-peers", "-remove-peer", "-address", "10.0.0.2:8300"]).trace = []
    ∧ operatorCalls (OperatorRaftCommand.fresh.Run clusterEnv
      ["-list-peers", "-remove-peer", "-address", "10.0.0.2:8300"]).trace = 0
    ∧ listCalls (OperatorRaftCommand.fresh.Run clusterEnv
      ["-list-peers", "-remove-peer", "-address", "10.0.0.2:8300"]).trace = [false]
    ∧ stdout (OperatorRaftCommand.fresh.Run clusterEnv
      ["-list-peers", "-remove-peer", "-address", "10.0.0.2:8300"]).trace
        = ["Node  ID  Address  State  Voter"] :=
  have h := C9_list_takes_precedence clusterEnv OperatorRaftCommand.fresh
    ["-list-peers", "-remove-peer", "-address", "10.0.0.2:8300"] []
    (by decide) (by decide) (by decide)
  ⟨h.1, h.2.1, (h.2.2.2 (by decide)).1, (h.2.2.2 (by decide)).2⟩

/-! ## Branches of `ValidateCommand.Run` -/

theorem validate_append_args (c : ValidateCommand) (rest : List String) :
    (if rest.length > 0 then { c with configFiles := c.configFiles ++ rest } else c)
      = { configFiles := c.configFiles ++ rest, quiet := c.quiet } := by
  cases rest <;> simp

theorem validate_loaded_eq (c : ValidateCommand) (sets : List SetCall) (rest : List String) :
    (if rest.length > 0 then
        { sets.foldl ValidateCommand.set c.initFlags with
          configFiles := (sets.foldl ValidateCommand.set c.initFlags).configFiles ++ rest }
      else sets.foldl ValidateCommand.set c.initFlags)
      = c.loaded sets rest := by
  rw [validate_append_args, validate_fold_configFiles, validate_fold_quiet]
  simp [ValidateCommand.loaded, ValidateCommand.sources, ValidateCommand.initFlags, boolFlag]

theorem validate_run_parse_err (env : ValidateEnv) (c : ValidateCommand)
    (args : List String) (e : GoError) (printed : List String)
    (hp : (env.parse args).result = .err e printed) :
    (c.Run env args).trace = printed.map Event.flagOutput ++ [.uiError e]
    ∧ (c.Run env args).ret = 1 := by
  simp [ValidateCommand.Run, hp]

theorem validate_run_parse_help (env : ValidateEnv) (c : ValidateCommand)
    (args : List String) (printed : List String)
    (hp : (env.parse args).result = .errHelp printed) :
    (c.Run env args).trace = printed.map Event.flagOutput ++ [.uiError errHelpText]
    ∧ (c.Run env args).ret = 1 := by
  simp [ValidateCommand.Run, hp]

theorem validate_run_empty (env : ValidateEnv) (c : ValidateCommand)
    (args rest : List String) (hp : (env.parse args).result = .ok rest)
    (hs : c.sources (env.parse args).sets rest = []) :
    c.Run env args = ⟨c.loaded (env.parse args).sets rest,
      [.uiError "Must specify at least one config file or directory"], 1⟩ := by
  simp only [ValidateCommand.Run, hp, validate_loaded_eq]
  simp [ValidateCommand.loaded, hs]

theorem validate_run_builder_err (env : ValidateEnv) (c : ValidateCommand)
    (args rest : List String) (e : GoError) (hp : (env.parse args).result = .ok rest)
    (hs : c.sources (env.parse args).sets rest ≠ [])
    (hb : env.newBuilder (c.sources (env.parse args).sets rest) = some e) :
    c.Run env args = ⟨c.loaded (env.parse args).sets rest,
      [.newBuilder (c.sources (env.parse args).sets rest),
       .uiError ("Config validation failed: " ++ e)], 1⟩ := by
  simp only [ValidateCommand.Run, hp, validate_loaded_eq]
  have hlen : ¬ (c.sources (env.parse args).sets rest).length < 1 := by
    cases hq : c.sources (env.parse args).sets rest with
    | nil => exact absurd hq hs
    | cons x xs => simp
  simp [ValidateCommand.loaded, hlen, hb]

theorem validate_run_build_err (env : ValidateEnv) (c : ValidateCommand)
    (args rest : List String) (e : GoError) (hp : (env.parse args).result = .ok rest)
    (hs : c.sources (env.parse args).sets rest ≠ [])
    (hb : env.newBuilder (c.sources (env.parse args).sets rest) = none)
    (hv : env.buildAndValidate (c.sources (env.parse args).sets rest) = some e) :
    c.Run env args = ⟨c.loaded (env.parse args).sets rest,
      [.newBuilder (c.sources (env.parse args).sets rest), .buildAndValidate,
       .uiError ("Config validation failed: " ++ e)], 1⟩ := by
  simp only [ValidateCommand.Run, hp, validate_loaded_eq]
  have hlen : ¬ (c.sources (env.parse args).sets rest).length < 1 := by
    cases hq : c.sources (env.parse args).sets rest with
    | nil => exact absurd hq hs
    | cons x xs => simp
  simp [ValidateCommand.loaded, hlen, hb, hv]

theorem validate_run_valid (env : ValidateEnv) (c : ValidateCommand)
    (args rest : List String) (hp : (env.parse args).result = .ok rest)
    (hs : c.sources (env.parse args).sets rest ≠ [])
    (hb : env.newBuilder (c.sources (env.parse args).sets rest) = none)
    (hv : env.buildAndValidate (c.sources (env.parse args).sets rest) = none) :
    c.Run env args = ⟨c.loaded (env.parse args).sets rest,
      [.newBuilder (c.sources (env.parse args).sets rest), .buildAndValidate] ++
        (if boolFlag "quiet" false (env.parse args).sets then []
         else [.uiOutput "Configuration is valid!"]), 0⟩ := by
  simp only [ValidateCommand.Run, hp, validate_loaded_eq]
  have hlen : ¬ (c.sources (env.parse args).sets rest).length < 1 := by
    cases hq : c.sources (env.parse args).sets rest with
    | nil => exact absurd hq hs
    | cons x xs => simp
  cases hq : boolFlag "quiet" false (env.parse args).sets <;>
    simp [ValidateCommand.loaded, hlen, hb, hv, hq]

/-! ## Claims about `ValidateCommand` -/

/-- C6 (counterexample): a command that has already validated `a.json` is run
again with an empty command line; the arguments parse and supply no source, yet
the builder is invoked (with the source kept from the first run), nothing is
written to the error stream and `Run` returns 0. -/
theorem C6_reused_command_keeps_sources :
    (ValidateCommand.fresh.Run diskEnv ["a.json"]).cmd.configFiles = ["a.json"]
    ∧ (diskEnv.parse []).result = .ok []
    ∧ configSources (diskEnv.parse []).sets = []
    ∧ builderCalls (((ValidateCommand.fresh.Run diskEnv ["a.json"]).cmd).Run diskEnv []).trace
        = [["a.json"]]
    ∧ stderr (((ValidateCommand.fresh.Run diskEnv ["a.json"]).cmd).Run diskEnv []).trace = []
    ∧ (((ValidateCommand.fresh.Run diskEnv ["a.json"]).cmd).Run diskEnv []).ret = 0 := by
  decide

/-- C6 (amended): for a command that holds no source on entry (a freshly
constructed one in particular), when the arguments parse and supply no source
(no `-config-file`/`-config-dir` value, no positional argument), `Run` returns
1, writes `Must specify at least one config file or directory` to the error
stream, nothing to standard output, and never invokes the builder. -/
theorem C6_no_source_is_an_error (env : ValidateEnv) (c : ValidateCommand)
    (args : List String)
    (hfresh : c.configFiles = [])
    (hp : (env.parse args).result = .ok [])
    (hs : configSources (env.parse args).sets = []) :
    (c.Run env args).ret = 1
    ∧ stderr (c.Run env args).trace = ["Must specify at least one config file or directory"]
    ∧ stdout (c.Run env args).trace = []
    ∧ builderCalls (c.Run env args).trace = [] := by
  have hsrc : c.sources (env.parse args).sets [] = [] := by
    simp [ValidateCommand.sources, hfresh, hs]
  rw [validate_run_empty env c args [] hp hsrc]
  simp [stderr, stdout, builderCalls]

/-- Witness of C6 (amended): a fresh command and the empty command line. -/
theorem C6_no_source_is_an_error_witness :
    (ValidateCommand.fresh.Run diskEnv []).ret = 1
    ∧ stderr (ValidateCommand.fresh.Run diskEnv []).trace
        = ["Must specify at least one config file or directory"]
    ∧ stdout (ValidateCommand.fresh.Run diskEnv []).trace = []
    ∧ builderCalls (ValidateCommand.fresh.Run diskEnv []).trace = [] :=
  C6_no_source_is_an_error diskEnv ValidateCommand.fresh [] (by decide) (by decide) (by decide)

/-- C7: when the arguments parse and the source list is non-empty: if building
and validating succeed, `Run` writes nothing to either stream when `-quiet` is
set and exactly `Configuration is valid!` to standard output (nothing to the
error stream) when it is not; if `NewBuilder` or `BuildAndValidate` fails with
`e`, `Run` writes `Config validation failed: e` to the error stream whatever
the value of `-quiet`. -/
theorem C7_quiet_only_silences_success (env : ValidateEnv) (c : ValidateCommand)
    (args rest : List String)
    (hp : (env.parse args).result = .ok rest)
    (hs : c.sources (env.parse args).sets rest ≠ []) :
    (env.newBuilder (c.sources (env.parse args).sets rest) = none →
      env.buildAndValidate (c.sources (env.parse args).sets rest) = none →
      (boolFlag "quiet" false (env.parse args).sets = true →
        stdout (c.Run env args).trace = [] ∧ stderr (c.Run env args).trace = [])
      ∧ (boolFlag "quiet" false (env.parse args).sets = false →
        stdout (c.Run env args).trace = ["Configuration is valid!"]
        ∧ stderr (c.Run env args).trace = []))
    ∧ (∀ e, env.newBuilder (c.sources (env.parse args).sets rest) = some e →
        stderr (c.Run env args).trace = ["Config validation failed: " ++ e])
    ∧ (∀ e, env.newBuilder (c.sources (env.parse args).sets rest) = none →
        env.buildAndValidate (c.sources (env.parse args).sets rest) = some e →
        stderr (c.Run env args).trace = ["Config validation failed: " ++ e]) := by
  refine ⟨fun hb hv => ?_, fun e hb => ?_, fun e hb hv => ?_⟩
  · rw [validate_run_valid env c args rest hp hs hb hv]
    constructor
    · intro hq
      simp [hq, stdout, stderr]
    · intro hq
      simp [hq, stdout, stderr]
  · rw [validate_run_builder_err env c args rest e hp hs hb]
    simp [stderr]
  · rw [validate_run_build_err env c args rest e hp hs hb hv]
    simp [stderr]

/-- Witness of C7: `a.json` validates and `broken.json` does not, each with
and without `-quiet`. -/
theorem C7_quiet_only_silences_success_witness :
    (stdout (ValidateCommand.fresh.Run diskEnv ["-quiet", "a.json"]).trace = []
      ∧ stderr (ValidateCommand.fresh.Run diskEnv ["-quiet", "a.json"]).trace = [])
    ∧ (stdout (ValidateCommand.fresh.Run diskEnv ["a.json"]).trace = ["Configuration is valid!"]
      ∧ stderr (ValidateCommand.fresh.Run diskEnv ["a.json"]).trace = [])
    ∧ stderr (ValidateCommand.fresh.Run diskEnv ["-quiet", "broken.json"]).trace
        = ["Config validation failed: Error parsing broken.json: invalid character"]
    ∧ stderr (ValidateCommand.fresh.Run diskEnv ["broken.json"]).trace
        = ["Config validation failed: Error parsing broken.json: invalid character"] :=
  ⟨((C7_quiet_only_silences_success diskEnv ValidateCommand.fresh ["-quiet", "a.json"]
      ["a.json"] (by decide) (by decide)).1 (by decide) (by decide)).1 (by decide),
   ((C7_quiet_only_silences_success diskEnv ValidateCommand.fresh ["a.json"]
      ["a.json"] (by decide) (by decide)).1 (by decide) (by decide)).2 (by decide),
   (C7_quiet_only_silences_success diskEnv ValidateCommand.fresh ["-quiet", "broken.json"]
      ["broken.json"] (by decide) (by decide)).2.2
      "Error parsing broken.json: invalid character" (by decide) (by decide),
   (C7_quiet_only_silences_success diskEnv ValidateCommand.fresh ["broken.json"]
      ["broken.json"] (by decide) (by decide)).2.2
      "Error parsing broken.json: invalid character" (by decide) (by decide)⟩

/-- C8 (counterexample): a command that has already validated `a.json` is run
again with an empty command line: no source is given, yet `Run` returns 0; and
on the rejected command line `-bogus` a fresh command returns 1 with two
messages on the error stream, the line of `Parse` itself and the one of `Run`. -/
theorem C8_reused_command_returns_zero :
    ((diskEnv.parse []).result = .ok []
      ∧ configSources (diskEnv.parse []).sets ++ [] = []
      ∧ (((ValidateCommand.fresh.Run diskEnv ["-quiet", "a.json"]).cmd).Run diskEnv []).ret = 0)
    ∧ ((ValidateCommand.fresh.Run diskEnv ["-bogus"]).ret = 1
      ∧ stderr (ValidateCommand.fresh.Run diskEnv ["-bogus"]).trace
          = ["flag provided but not defined: -bogus",
             "flag provided but not defined: -bogus"]) := by
  decide

/-- C8 (amended): for every invocation of `ValidateCommand.Run`, the result is
0 with nothing written to the error stream, or 1 with exactly one message
written by `Run` itself through `c.UI.Error`, the error stream then holding
what `FlagSet.Parse` printed by itself (nothing when the arguments parse)
followed by that one message; and it is 0 if and only if the arguments parse,
the source list of the command (the sources it already holds, then the
`-config-file` and `-config-dir` values, then the positional arguments) is
non-empty, `config.NewBuilder` succeeds and `BuildAndValidate` succeeds. -/
theorem C8_exit_code_is_the_signal (env : ValidateEnv) (c : ValidateCommand)
    (args : List String) :
    (((c.Run env args).ret = 0 ∧ stderr (c.Run env args).trace = [])
      ∨ ((c.Run env args).ret = 1
          ∧ (uiErrors (c.Run env args).trace).length = 1
          ∧ stderr (c.Run env args).trace
              = (env.parse args).result.printed ++ uiErrors (c.Run env args).trace))
    ∧ ((c.Run env args).ret = 0 ↔
        ∃ rest, (env.parse args).result = .ok rest
          ∧ c.sources (env.parse args).sets rest ≠ []
          ∧ env.newBuilder (c.sources (env.parse args).sets rest) = none
          ∧ env.buildAndValidate (c.sources (env.parse args).sets rest) = none) := by
  cases hp : (env.parse args).result with
  | errHelp printed =>
    obtain ⟨ht, hr⟩ := validate_run_parse_help env c args printed hp
    simp [ht, hr, stderr_flagOutput, uiErrors_flagOutput, stderr, uiErrors,
      ParseResult.printed]
  | err e printed =>
    obtain ⟨ht, hr⟩ := validate_run_parse_err env c args e printed hp
    simp [ht, hr, stderr_flagOutput, uiErrors_flagOutput, stderr, uiErrors,
      ParseResult.printed]
  | ok rest =>
    by_cases hs : c.sources (env.parse args).sets rest = []
    · rw [validate_run_empty env c args rest hp hs]
      simp [stderr, uiErrors, ParseResult.printed, hs]
    · cases hb : env.newBuilder (c.sources (env.parse args).sets rest) with
      | some e =>
        rw [validate_run_builder_err env c args rest e hp hs hb]
        simp [stderr, uiErrors, ParseResult.printed, hb]
      | none =>
        cases hv : env.buildAndValidate (c.sources (env.parse args).sets rest) with
        | some e =>
          rw [validate_run_build_err env c args rest e hp hs hb hv]
          simp [stderr, uiErrors, ParseResult.printed, hb, hv]
        | none =>
          rw [validate_run_valid env c args rest hp hs hb hv]
          cases hq : boolFlag "quiet" false (env.parse args).sets <;>
            simp [stderr, hs, hb, hv]

/-- C10: for a freshly constructed `ValidateCommand` whose arguments parse,
`config.NewBuilder` is invoked at most once, and the source list it receives is
the values given via `-config-file` and `-config-dir`, in command-line order,
followed by the positional arguments in their order (it is not invoked when
that list is empty). -/
theorem C10_builder_sources_in_order (env : ValidateEnv) (args rest : List String)
    (hp : (env.parse args).result = .ok rest) :
    builderCalls (ValidateCommand.fresh.Run env args).trace
      = if configSources (env.parse args).sets ++ rest = [] then []
        else [configSources (env.parse args).sets ++ rest] := by
  have hsrc : ValidateCommand.fresh.sources (env.parse args).sets rest
      = configSources (env.parse args).sets ++ rest := by
    simp [ValidateCommand.sources, ValidateCommand.fresh]
  by_cases hs : ValidateCommand.fresh.sources (env.parse args).sets rest = []
  · rw [validate_run_empty env ValidateCommand.fresh args rest hp hs]
    rw [hsrc] at hs
    simp [builderCalls, hs]
  · cases hb : env.newBuilder (ValidateCommand.fresh.sources (env.parse args).sets rest) with
    | some e =>
      rw [validate_run_builder_err env ValidateCommand.fresh args rest e hp hs hb]
      rw [hsrc] at hs ⊢
      simp [builderCalls, hs]
    | none =>
      cases hv : env.buildAndValidate
          (ValidateCommand.fresh.sources (env.parse args).sets rest) with
      | some e =>
        rw [validate_run_build_err env ValidateCommand.fresh args rest e hp hs hb hv]
        rw [hsrc] at hs ⊢
        simp [builderCalls, hs]
      | none =>
        rw [validate_run_valid env ValidateCommand.fresh args rest hp hs hb hv]
        rw [hsrc] at hs ⊢
        cases hq : boolFlag "quiet" false (env.parse args).sets <;>
          simp [builderCalls, hs]

/-- Witness of C10: a directory and a file given by flag, in that order, and
two positional arguments, one of them repeating the file. -/
theorem C10_builder_sources_in_order_witness :
    builderCalls (ValidateCommand.fresh.Run diskEnv
      ["-config-dir", "conf.d", "-config-file", "a.json", "b.json", "a.json"]).trace
      = [["conf.d", "a.json", "b.json", "a.json"]] :=
  C10_builder_sources_in_order diskEnv
    ["-config-dir", "conf.d", "-config-file", "a.json", "b.json", "a.json"]
    ["b.json", "a.json"] (by decide)

end Consul
